import Mathlib

/-!
Shallow embedding of the Legal Agent query-relay services
(`legal-agent-api-final.py`, `legal-agent-api-v2.py`, `legal-agent-api.py`)
and proofs of the behavioural claims about them.

Strings are Lean `String`s; Python truthiness of optional strings/ints is
made explicit; the external provider is an oracle function passed in;
wall-clock values (query id, timestamps, durations) are parameters.
-/

namespace LegalAgent

/-- Python `x or d` for an `Optional[int]` value `x`: `None` and `0` are falsy. -/
def pyOrInt : Option Int → Int → Int
  | none, d => d
  | some v, d => if v = 0 then d else v

/-- Python `x or d` for an `Optional[str]` value `x`: `None` and `""` are falsy. -/
def pyOrStr : Option String → String → String
  | none, d => d
  | some s, d => if s = "" then d else s

/-- Truthiness of an `os.getenv` result: set and non-empty. -/
def envTruthy : Option String → Bool
  | none => false
  | some s => s ≠ ""

/-- Whitespace characters removed by Python `str.strip()` (ASCII subset actually
arising in this code base). -/
def isPySpace (c : Char) : Bool :=
  c = ' ' || c = '\t' || c = '\n' || c = '\r' || c = '\x0b' || c = '\x0c'

/-- Character-list core of Python `str.strip()`. -/
def stripChars (l : List Char) : List Char :=
  ((l.dropWhile isPySpace).reverse.dropWhile isPySpace).reverse

/-- Python `s.strip()`. -/
def pyStrip (s : String) : String := ⟨stripChars s.data⟩

/-- Concatenation of a list of strings (used to describe accumulated stream content). -/
def strJoin : List String → String
  | [] => ""
  | s :: rest => s ++ strJoin rest

/-- `sub` occurs contiguously inside `hay` (substring containment). -/
def containsStr (hay sub : String) : Prop := sub.data <:+: hay.data

/-- The raw inbound JSON body of a query request, before pydantic validation.
`query`: `none` = field missing. `context`: absent and `null` both collapse to
`none` (pydantic default `None`). `max_turns`: `none` = field absent,
`some none` = explicit `null`, `some (some v)` = explicit integer. -/
structure RawQuery where
  query : Option String
  context : Option String
  max_turns : Option (Option Int)
deriving DecidableEq

/-- The pydantic model `LegalQueryRequest` (identical in all three variants):
`query: str`, `context: Optional[str] = None`, `max_turns: Optional[int] = 2`. -/
structure LegalQueryRequest where
  query : String
  context : Option String
  max_turns : Option Int
deriving DecidableEq

/-- The pydantic model `LegalQueryResponse` (identical in all three variants).
`processing_time` is wall-clock and modelled as an integer parameter. -/
structure LegalQueryResponse where
  query_id : String
  status : String
  response : String
  processing_time : Int
  timestamp : String
deriving DecidableEq

/-- Request-validation failure produced by FastAPI/pydantic before the handler runs. -/
inductive ValidationError
  | missingQuery
deriving DecidableEq

/-- Pydantic validation of the inbound body: `query` is required (422-class
rejection when missing); `context` defaults to `None`; `max_turns` defaults to
`2` when the field is absent, and keeps an explicit `null` as `None`. -/
def parseLegalQueryRequest (r : RawQuery) : Except ValidationError LegalQueryRequest :=
  match r.query with
  | none => .error .missingQuery
  | some q =>
      .ok { query := q
            context := r.context
            max_turns := match r.max_turns with
              | none => some 2
              | some m => m }

/-- FastAPI `HTTPException(status_code, detail)`. -/
structure HTTPException where
  status_code : Nat
  detail : String
deriving DecidableEq

end LegalAgent

namespace LegalAgent.Final

/-!  Embedding of `legal-agent-api-final.py`. -/

open LegalAgent

/-- State of `ClaudeLegalAgent`: the query counter and the availability flag
computed in `__init__` (and never recomputed afterwards). The `client` object
is abstracted away; `available = true` iff it was constructed. -/
structure AgentState where
  query_count : Nat
  available : Bool
deriving DecidableEq

/-- `ClaudeLegalAgent.__init__`: reads `ANTHROPIC_API_KEY` from the environment
once and sets `available` iff the key is truthy and the `anthropic` library imported. -/
def agentInit (anthropicAvailable : Bool) (apiKey : Option String) : AgentState :=
  { query_count := 0, available := envTruthy apiKey && anthropicAvailable }

/-- The static legal-analysis system prompt of the final variant. -/
def systemPrompt : String :=
  "You are a specialized legal analysis AI assistant with expertise in contract law, regulatory compliance, and risk assessment. \n\nProvide detailed, accurate legal analysis while always noting that your responses are for informational purposes only and do not constitute legal advice. Always recommend consulting with a qualified attorney for specific legal matters.\n\nFocus on:\n- Contract clause analysis and interpretation\n- Legal risk assessment and mitigation strategies\n- Regulatory compliance guidance\n- Legal terminology explanations\n- Industry best practices and recommendations\n- Relevant legal precedents and principles\n\nBe thorough, professional, and cite relevant legal principles when applicable. Structure your responses clearly with headings and bullet points where appropriate."

/-- The user message assembled from the request: label, query, optional
context block, closing instruction. -/
def userMessage (req : LegalQueryRequest) : String :=
  (match req.context with
   | some c => "**Legal Analysis Request:** " ++ req.query ++ "\n\n**Context:** " ++ c
   | none => "**Legal Analysis Request:** " ++ req.query)
  ++ "\n\nPlease provide a comprehensive legal analysis addressing the specific query above."

/-- The conditional context line `{f'**Context:** {request.context}' if request.context else ''}`
appearing in both canned templates (empty for `None` and for the falsy empty string). -/
def ctxSegment : Option String → String
  | none => ""
  | some c => if c = "" then "" else "**Context:** " ++ c

/-- Leading part of the "setup required" canned response, up to `**Your Query:** `. -/
def setupPre : String :=
  "🏛️ **Claude Legal Agent Setup Required**\n\nYour legal analysis API is deployed and running, but requires authentication configuration.\n\n**To enable full Claude Max legal analysis:**\n1. Go to your Render dashboard\n2. Add environment variable: `ANTHROPIC_API_KEY`\n3. Set the value to your Anthropic API key\n\n**Your Query:** "

/-- Trailing part of the "setup required" canned response, after the context line. -/
def setupPost : String :=
  "\n\n**What this API will provide once configured:**\n- Professional legal analysis powered by Claude\n- Contract clause review and risk assessment  \n- Regulatory compliance guidance\n- Legal terminology explanations\n- Best practices recommendations\n\n**Note:** All responses are for informational purposes only and do not constitute legal advice. Always consult with a qualified attorney for specific legal matters.\n\n🔗 Get your API key: https://console.anthropic.com/"

/-- The "setup required" canned response with the submitted query and context embedded. -/
def setupResponse (req : LegalQueryRequest) : String :=
  setupPre ++ req.query ++ "\n" ++ ctxSegment req.context ++ setupPost

/-- Leading part of the provider-error canned response, up to the error message. -/
def errorPre : String :=
  "⚠️ **Legal Analysis Service Error**\n\nAn error occurred while processing your legal query: "

/-- Trailing part of the provider-error canned response, after the context line. -/
def errorPost : String :=
  "\n\n**Troubleshooting Steps:**\n1. Verify ANTHROPIC_API_KEY is set in Render environment variables\n2. Check API key is valid and has sufficient credits\n3. Ensure network connectivity to Anthropic servers\n\n**For immediate legal assistance, please consult with a qualified attorney.**\n\nThis is a temporary service issue - your legal analysis API is properly configured and will resume normal operation once resolved."

/-- The provider-error canned response with the exception text, query and context embedded. -/
def errorResponse (req : LegalQueryRequest) (e : String) : String :=
  errorPre ++ e ++ "\n\n**Your Query:** " ++ req.query ++ "\n" ++ ctxSegment req.context ++ errorPost

/-- Result of one call to `ClaudeLegalAgent.process_legal_query`: the returned
envelope, whether the Anthropic API was invoked, and the post-call agent state. -/
structure Outcome where
  envelope : LegalQueryResponse
  providerCalled : Bool
  agent : AgentState
deriving DecidableEq

/-- `ClaudeLegalAgent.process_legal_query`. `provider` is the oracle for
`client.messages.create` applied to (system prompt, user message): `.ok text`
is `message.content[0].text`, `.error e` an exception with message `e`.
`query_id`, `pt` (elapsed seconds) and `ts` (completion timestamp) are
wall-clock parameters. -/
def process_legal_query (agent : AgentState) (req : LegalQueryRequest)
    (provider : String → String → Except String String)
    (query_id : String) (pt : Int) (ts : String) : Outcome :=
  let mkEnv (content : String) : LegalQueryResponse :=
    { query_id := query_id, status := "completed", response := content
      processing_time := pt, timestamp := ts }
  if agent.available then
    match provider systemPrompt (userMessage req) with
    | .ok text =>
        { envelope := mkEnv text, providerCalled := true
          agent := { agent with query_count := agent.query_count + 1 } }
    | .error e =>
        { envelope := mkEnv (errorResponse req e), providerCalled := true
          agent := { agent with query_count := agent.query_count + 1 } }
  else
    { envelope := mkEnv (setupResponse req), providerCalled := false
      agent := { agent with query_count := agent.query_count + 1 } }

/-- The `enhanced_request` built by the `/legal/contract-review` endpoint. -/
def contract_review_enhanced (req : LegalQueryRequest) : LegalQueryRequest :=
  { query := "CONTRACT REVIEW AND ANALYSIS: " ++ req.query
    context := some ("Contract Analysis Context: " ++
      pyOrStr req.context
        "General contract review - please identify key legal issues, risks, and recommendations")
    max_turns := some (pyOrInt req.max_turns 3) }

/-- The `enhanced_request` built by the `/legal/risk-assessment` endpoint. -/
def risk_assessment_enhanced (req : LegalQueryRequest) : LegalQueryRequest :=
  { query := "LEGAL RISK ASSESSMENT: " ++ req.query
    context := some ("Risk Analysis Context: " ++
      pyOrStr req.context
        "Comprehensive legal risk evaluation - identify potential liabilities, compliance issues, and mitigation strategies")
    max_turns := some (pyOrInt req.max_turns 2) }

/-- A process lifetime serving two successive requests: the module-level agent
is built once from the startup environment `e0`; the environment visible at the
time of the second request is `e1` — `process_legal_query` never reads it,
which is exactly what the caching claims are about. -/
def twoRequests (lib : Bool) (e0 e1 : Option String) (req : LegalQueryRequest)
    (provider : String → String → Except String String)
    (id1 id2 : String) (pt : Int) (ts : String) : Outcome × Outcome :=
  let agent := agentInit lib e0
  let o1 := process_legal_query agent req provider id1 pt ts
  let _ := e1
  let o2 := process_legal_query o1.agent req provider id2 pt ts
  (o1, o2)

end LegalAgent.Final

namespace LegalAgent.V2

/-!  Embedding of `legal-agent-api-v2.py`. -/

open LegalAgent

/-- State of `LegalAgent` (v2): query counter and whether an Anthropic client
was constructed in `__init__` (iff the key was truthy at startup). -/
structure AgentState where
  query_count : Nat
  hasClient : Bool
deriving DecidableEq

/-- `LegalAgent.__init__` (v2): builds the client iff `ANTHROPIC_API_KEY` is
truthy at construction time. -/
def agentInit (apiKey : Option String) : AgentState :=
  { query_count := 0, hasClient := envTruthy apiKey }

/-- The static system prompt of the v2 variant. -/
def systemPrompt : String :=
  "You are a specialized legal analysis AI assistant. Provide detailed, accurate legal analysis while noting that your responses are for informational purposes only and do not constitute legal advice. Always recommend consulting with a qualified attorney for specific legal matters.\n\nFocus on:\n- Contract clause analysis\n- Legal risk assessment\n- Regulatory compliance guidance  \n- Legal terminology explanation\n- Best practices recommendations\n\nBe thorough, professional, and cite relevant legal principles when applicable."

/-- The `full_prompt` assembled in v2. -/
def fullPrompt (req : LegalQueryRequest) : String :=
  (match req.context with
   | some c => "Legal Analysis Request: " ++ req.query ++ "\n\nContext: " ++ c
   | none => "Legal Analysis Request: " ++ req.query)
  ++ "\n\nPlease provide a comprehensive legal analysis addressing the specific query above."

/-- The canned fallback text returned by v2 when no client exists but the
handler still proceeds. -/
def fallbackResponse : String :=
  "Legal analysis service is currently being configured. \n\nFor immediate legal assistance, please consult with a qualified attorney.\n\nThis API will provide comprehensive legal analysis including:\n- Contract clause review and risk assessment\n- Legal terminology explanations\n- Regulatory compliance guidance\n- Best practices recommendations\n\nPlease ensure proper authentication is configured to access Claude\x27s advanced legal reasoning capabilities."

/-- Result of one call to v2 `process_legal_query`: either an envelope or an
`HTTPException` raised out of the handler, plus whether the provider was
invoked and the post-call state. -/
structure Outcome where
  result : Except HTTPException LegalQueryResponse
  providerCalled : Bool
  agent : AgentState

/-- v2 `LegalAgent.process_legal_query`. `anthropicAvailable` is the module
module availability flag; `reqKey` is the value of `ANTHROPIC_API_KEY` re-read by
`os.getenv` during this request; `provider` is the oracle for
`client.messages.create` (only reachable when a client exists). -/
def process_legal_query (anthropicAvailable : Bool) (agent : AgentState)
    (reqKey : Option String) (req : LegalQueryRequest)
    (provider : String → String → Except String String)
    (query_id : String) (pt : Int) (ts : String) : Outcome :=
  if ¬ anthropicAvailable then
    { result := .error ⟨500, "Anthropic API not available. Please install anthropic package."⟩
      providerCalled := false, agent := agent }
  else if ¬ agent.hasClient && ¬ envTruthy reqKey then
    { result := .error ⟨500, "Authentication not configured. Set ANTHROPIC_API_KEY environment variable."⟩
      providerCalled := false, agent := agent }
  else if agent.hasClient then
    match provider systemPrompt (fullPrompt req) with
    | .ok text =>
        { result := .ok { query_id := query_id, status := "completed", response := text
                          processing_time := pt, timestamp := ts }
          providerCalled := true
          agent := { agent with query_count := agent.query_count + 1 } }
    | .error e =>
        { result := .error ⟨500, "Legal analysis failed: " ++ e⟩
          providerCalled := true, agent := agent }
  else
    { result := .ok { query_id := query_id, status := "completed", response := fallbackResponse
                      processing_time := pt, timestamp := ts }
      providerCalled := false
      agent := { agent with query_count := agent.query_count + 1 } }

end LegalAgent.V2

namespace LegalAgent.V1

/-!  Embedding of `legal-agent-api.py` (the Claude Code SDK variant). -/

open LegalAgent

/-- One message yielded by `client.receive_response()`. `content = none` models
a message without a `content` attribute; `some ""` a falsy empty content —
neither is concatenated nor counted against the turn limit. -/
structure Msg where
  content : Option String
deriving DecidableEq

/-- The response-collection loop of v1 `process_legal_query`: concatenate the
content of each content-bearing message, incrementing `turn_count`, and break
as soon as `turn_count >= max_turns`. `count` is the Python `turn_count`. -/
def collectLoop (maxT : Int) : List Msg → Nat → String → String
  | [], _, acc => acc
  | m :: rest, count, acc =>
      match m.content with
      | some c =>
          if c = "" then collectLoop maxT rest count acc
          else
            if ((count + 1 : Nat) : Int) ≥ maxT then acc ++ c
            else collectLoop maxT rest (count + 1) (acc ++ c)
      | none => collectLoop maxT rest count acc

/-- The list of content increments the loop actually consumes when `maxT`
turns remain: content-bearing messages in order, cut off once the limit hits. -/
def consumed (maxT : Int) : List Msg → List String
  | [] => []
  | m :: rest =>
      match m.content with
      | some c =>
          if c = "" then consumed maxT rest
          else if (1 : Int) ≥ maxT then [c]
          else c :: consumed (maxT - 1) rest
      | none => consumed maxT rest

/-- All content increments present in a stream (no turn limit applied). -/
def allContents : List Msg → List String
  | [] => []
  | m :: rest =>
      match m.content with
      | some c => if c = "" then allContents rest else c :: allContents rest
      | none => allContents rest

/-- The `full_prompt` assembled in v1 (same shape as v2). -/
def fullPrompt (req : LegalQueryRequest) : String :=
  (match req.context with
   | some c => "Legal Analysis Request: " ++ req.query ++ "\n\nContext: " ++ c
   | none => "Legal Analysis Request: " ++ req.query)
  ++ "\n\nPlease provide a comprehensive legal analysis addressing the specific query above."

/-- Fallback text substituted when the stripped accumulated content is empty. -/
def emptyFallback : String :=
  "Legal analysis completed successfully. Please check the detailed response."

/-- v1 `LegalAgent.process_legal_query`. `sdkAvailable` is the import flag;
`streamResult` is the oracle for the SDK session: `.ok msgs` the messages
yielded by `client.receive_response()`, `.error e` an exception raised by the
SDK interaction. Returns the envelope or the raised `HTTPException`, and the
post-call query counter. -/
def process_legal_query (sdkAvailable : Bool) (query_count : Nat)
    (req : LegalQueryRequest) (streamResult : Except String (List Msg))
    (query_id : String) (pt : Int) (ts : String) :
    Except HTTPException LegalQueryResponse × Nat :=
  if ¬ sdkAvailable then
    (.error ⟨500, "Claude Code SDK not available. Please install claude-code-sdk package."⟩,
     query_count)
  else
    match streamResult with
    | .error e => (.error ⟨500, "Legal analysis failed: " ++ e⟩, query_count)
    | .ok msgs =>
        let maxT := pyOrInt req.max_turns 2
        let rc := collectLoop maxT msgs 0 ""
        let rc := if pyStrip rc = "" then emptyFallback else rc
        (.ok { query_id := query_id, status := "completed", response := pyStrip rc
               processing_time := pt, timestamp := ts },
         query_count + 1)

/-- The newline-to-space rewriting `message.content.replace(chr(10), ' ')`
applied to each streamed chunk (single-character pattern, hence a character map). -/
def nlToSpace (s : String) : String :=
  ⟨s.data.map fun c => if c = '\n' then ' ' else c⟩

/-- Leading text of a content frame emitted by `generate_stream`. -/
def frameHead : String := "data: \x7b\x27content\x27: \x27"

/-- Trailing text of a content frame emitted by `generate_stream`. -/
def frameTail : String := "\x27\x7d\n\n"

/-- One content frame of the `/legal/stream` endpoint, with newlines in the
provider text replaced by spaces before framing. -/
def streamFrame (content : String) : String :=
  frameHead ++ nlToSpace content ++ frameTail

/-- The sequence of frames emitted by `generate_stream` on a successful SDK
session: one frame per content-bearing message, then the completion marker. -/
def generate_stream (msgs : List Msg) : List String :=
  (msgs.filterMap fun m =>
    match m.content with
    | some c => if c = "" then none else some (streamFrame c)
    | none => none)
  ++ ["data: \x7b\x27status\x27: \x27completed\x27\x7d\n\n"]

end LegalAgent.V1

namespace LegalAgent

/-! Helper lemmas about strings and the embedded operations. -/

lemma strAppend_empty (s : String) : s ++ "" = s := by
  apply String.ext
  simp [String.data_append]

lemma strEmpty_append (s : String) : "" ++ s = s := by
  apply String.ext
  simp [String.data_append]

lemma strAppend_assoc (a b c : String) : a ++ b ++ c = a ++ (b ++ c) := by
  apply String.ext
  simp [String.data_append]

lemma append_ne_empty_left (s t : String) (h : s.data ≠ []) : s ++ t ≠ "" := by
  intro he
  have hd : (s ++ t).data = ("" : String).data := congrArg String.data he
  rw [String.data_append] at hd
  simp at hd
  exact h hd.1

lemma containsStr_empty (hay : String) : containsStr hay "" :=
  ⟨[], hay.data, by simp⟩

end LegalAgent

namespace LegalAgent.Final

lemma setupResponse_contains_query (req : LegalQueryRequest) :
    containsStr (setupResponse req) req.query := by
  refine ⟨setupPre.data, ("\n" ++ ctxSegment req.context ++ setupPost).data, ?_⟩
  simp [setupResponse, String.data_append, List.append_assoc]

lemma setupResponse_contains_context (req : LegalQueryRequest) (c : String)
    (h : req.context = some c) : containsStr (setupResponse req) c := by
  by_cases hc : c = ""
  · subst hc; exact containsStr_empty _
  · refine ⟨(setupPre ++ req.query ++ "\n" ++ "**Context:** ").data, setupPost.data, ?_⟩
    simp [setupResponse, ctxSegment, h, hc, String.data_append, List.append_assoc]

lemma errorResponse_contains_message (req : LegalQueryRequest) (e : String) :
    containsStr (errorResponse req e) e := by
  refine ⟨errorPre.data,
    ("\n\n**Your Query:** " ++ req.query ++ "\n" ++ ctxSegment req.context ++ errorPost).data, ?_⟩
  simp [errorResponse, String.data_append, List.append_assoc]

lemma errorResponse_contains_query (req : LegalQueryRequest) (e : String) :
    containsStr (errorResponse req e) req.query := by
  refine ⟨(errorPre ++ e ++ "\n\n**Your Query:** ").data,
    ("\n" ++ ctxSegment req.context ++ errorPost).data, ?_⟩
  simp [errorResponse, String.data_append, List.append_assoc]

lemma errorResponse_contains_context (req : LegalQueryRequest) (e : String) (c : String)
    (h : req.context = some c) : containsStr (errorResponse req e) c := by
  by_cases hc : c = ""
  · subst hc; exact containsStr_empty _
  · refine ⟨(errorPre ++ e ++ "\n\n**Your Query:** " ++ req.query ++ "\n" ++ "**Context:** ").data,
      errorPost.data, ?_⟩
    simp [errorResponse, ctxSegment, h, hc, String.data_append, List.append_assoc]

lemma setupResponse_ne_empty (req : LegalQueryRequest) : setupResponse req ≠ "" := by
  have : setupPre.data ≠ [] := by decide
  simpa [setupResponse, strAppend_assoc] using
    append_ne_empty_left setupPre (req.query ++ ("\n" ++ (ctxSegment req.context ++ setupPost))) this

lemma errorResponse_ne_empty (req : LegalQueryRequest) (e : String) : errorResponse req e ≠ "" := by
  have : errorPre.data ≠ [] := by decide
  simpa [errorResponse, strAppend_assoc] using
    append_ne_empty_left errorPre
      (e ++ ("\n\n**Your Query:** " ++ (req.query ++ ("\n" ++ (ctxSegment req.context ++ errorPost))))) this

end LegalAgent.Final

namespace LegalAgent.V1

/-- The accumulation loop computes exactly the concatenation of the increments
it consumes: with `count` turns already taken, `maxT - count` turns remain. -/
lemma collectLoop_eq_consumed (maxT : Int) (msgs : List Msg) :
    ∀ (count : Nat) (acc : String),
      collectLoop maxT msgs count acc = acc ++ strJoin (consumed (maxT - count) msgs) := by
  induction msgs with
  | nil => intro count acc; simp [collectLoop, consumed, strJoin, strAppend_empty]
  | cons m rest ih =>
    intro count acc
    cases hm : m.content with
    | none => simp [collectLoop, consumed, hm, ih count acc]
    | some c =>
      by_cases hc : c = ""
      · simp [collectLoop, consumed, hm, hc, ih count acc]
      · by_cases hstop : ((count + 1 : Nat) : Int) ≥ maxT
        · have hstop2 : (1 : Int) ≥ maxT - count := by push_cast at hstop ⊢; omega
          simp only [collectLoop, consumed, hm, if_neg hc, if_pos hstop, if_pos hstop2]
          simp [strJoin, strAppend_empty]
        · have hstop2 : ¬ ((1 : Int) ≥ maxT - count) := by push_cast at hstop ⊢; omega
          have harith : maxT - (count + 1 : Nat) = maxT - count - 1 := by push_cast; ring
          simp only [collectLoop, consumed, hm, hc, if_neg hstop, if_neg hstop2, ite_false,
            if_neg (by exact hc)]
          rw [ih (count + 1) (acc ++ c), harith]
          simp [strJoin, strAppend_assoc]

/-- The loop never consumes more than the positive turn limit. -/
lemma consumed_length_le (msgs : List Msg) :
    ∀ maxT : Int, 1 ≤ maxT → ((consumed maxT msgs).length : Int) ≤ maxT := by
  induction msgs with
  | nil => intro maxT h; simp [consumed]; omega
  | cons m rest ih =>
    intro maxT h
    cases hm : m.content with
    | none => simpa [consumed, hm] using ih maxT h
    | some c =>
      by_cases hc : c = ""
      · simpa [consumed, hm, hc] using ih maxT h
      · by_cases hstop : (1 : Int) ≥ maxT
        · simp [consumed, hm, hc, hstop]; omega
        · have h1 : 1 ≤ maxT - 1 := by omega
          have := ih (maxT - 1) h1
          simp only [consumed, hm, if_neg hc, if_neg hstop, ite_false, List.length_cons]
          push_cast at this ⊢
          omega

/-- The increments the loop consumes are an initial segment of the stream's
content increments: nothing is read out of order or past the cut-off. -/
lemma consumed_prefix (msgs : List Msg) :
    ∀ maxT : Int, consumed maxT msgs <+: allContents msgs := by
  induction msgs with
  | nil => intro maxT; simp [consumed, allContents]
  | cons m rest ih =>
    intro maxT
    cases hm : m.content with
    | none => simpa [consumed, allContents, hm] using ih maxT
    | some c =>
      by_cases hc : c = ""
      · simpa [consumed, allContents, hm, hc] using ih maxT
      · by_cases hstop : (1 : Int) ≥ maxT
        · simp only [consumed, allContents, hm, if_neg hc, if_pos hstop]
          exact ⟨allContents rest, rfl⟩
        · simp only [consumed, allContents, hm, if_neg hc, if_neg hstop]
          obtain ⟨t, ht⟩ := ih (maxT - 1)
          exact ⟨t, by simp [← ht]⟩

end LegalAgent.V1

namespace LegalAgent

/-! The claims. -/

/-- Claim C1. The claim says a `/legal/contract-review` request with no
`max_turns` forwards an effective limit of 3. In the code, pydantic fills the
model default `2` for an absent field before the endpoint's `or 3` ever runs,
so the forwarded limit is 2, not 3: the `or 3` only fires for an explicit
`null` or `0`. This theorem evaluates the code at the failing input (body
with `max_turns` absent) and also checks the parts of the claim that do hold
(risk assessment forwards 2; an explicit limit 1 is preserved). -/
theorem contract_review_default_turn_limit_is_two :
    parseLegalQueryRequest { query := some "X", context := none, max_turns := none }
      = .ok { query := "X", context := none, max_turns := some 2 }
    ∧ (Final.contract_review_enhanced
        { query := "X", context := none, max_turns := some 2 }).max_turns = some 2
    ∧ (Final.risk_assessment_enhanced
        { query := "X", context := none, max_turns := some 2 }).max_turns = some 2
    ∧ (Final.contract_review_enhanced
        { query := "X", context := none, max_turns := some 1 }).max_turns = some 1
    ∧ (Final.contract_review_enhanced
        { query := "X", context := none, max_turns := some 2 }).max_turns ≠ some 3 := by
  refine ⟨rfl, by decide, by decide, by decide, by decide⟩

/-- Claim C2, counterexample: a request whose `text` is the empty string is
not rejected by validation — `query: str` has no non-emptiness constraint, so
the claim as stated is false. -/
theorem empty_text_not_rejected :
    ¬ (∀ raw : RawQuery, raw.query = some "" →
        ∃ e, parseLegalQueryRequest raw = .error e) := by
  intro h
  obtain ⟨e, he⟩ := h { query := some "", context := none, max_turns := none } rfl
  simp [parseLegalQueryRequest] at he

/-- Claim C2, amended: a request with the `text` field missing is rejected by
pydantic validation (422-class) before the handler — and hence before any
provider interaction — while a request with `text` equal to the empty string
passes validation and is processed normally. -/
theorem missing_text_rejected_empty_text_accepted :
    (∀ raw : RawQuery, raw.query = none →
      parseLegalQueryRequest raw = .error .missingQuery)
    ∧ parseLegalQueryRequest { query := some "", context := none, max_turns := none }
        = .ok { query := "", context := none, max_turns := some 2 } := by
  constructor
  · intro raw h
    simp [parseLegalQueryRequest, h]
  · rfl

/-- Witness for the amended C2 at a concrete body with the field missing. -/
theorem missing_text_rejected_witness :
    parseLegalQueryRequest { query := none, context := none, max_turns := none }
      = .error .missingQuery :=
  missing_text_rejected_empty_text_accepted.1
    { query := none, context := none, max_turns := none } rfl

/-- Claim C9: submitting the same query twice with no credential configured
yields envelopes with distinct `query_id`s (the ids are freshly generated, so
distinct) but byte-identical `response` bodies: the setup-path body depends
only on the submitted `query` and `context`. -/
theorem idempotent_setup_response (agent1 agent2 : Final.AgentState)
    (req : LegalQueryRequest)
    (p1 p2 : String → String → Except String String)
    (id1 id2 : String) (pt1 pt2 : Int) (ts1 ts2 : String)
    (h1 : agent1.available = false) (h2 : agent2.available = false)
    (hid : id1 ≠ id2) :
    (Final.process_legal_query agent1 req p1 id1 pt1 ts1).envelope.query_id
      ≠ (Final.process_legal_query agent2 req p2 id2 pt2 ts2).envelope.query_id
    ∧ (Final.process_legal_query agent1 req p1 id1 pt1 ts1).envelope.response
      = (Final.process_legal_query agent2 req p2 id2 pt2 ts2).envelope.response := by
  constructor
  · simpa [Final.process_legal_query, h1, h2] using hid
  · simp [Final.process_legal_query, h1, h2]

/-- Witness for C9 at a concrete unavailable agent and two distinct ids. -/
theorem idempotent_setup_response_witness :
    (Final.process_legal_query ⟨0, false⟩ ⟨"Q", some "C", some 2⟩
        (fun _ _ => .ok "t") "id-one" 0 "ts").envelope.query_id
      ≠ (Final.process_legal_query ⟨0, false⟩ ⟨"Q", some "C", some 2⟩
        (fun _ _ => .ok "t") "id-two" 0 "ts").envelope.query_id
    ∧ (Final.process_legal_query ⟨0, false⟩ ⟨"Q", some "C", some 2⟩
        (fun _ _ => .ok "t") "id-one" 0 "ts").envelope.response
      = (Final.process_legal_query ⟨0, false⟩ ⟨"Q", some "C", some 2⟩
        (fun _ _ => .ok "t") "id-two" 0 "ts").envelope.response :=
  idempotent_setup_response ⟨0, false⟩ ⟨0, false⟩ ⟨"Q", some "C", some 2⟩
    (fun _ _ => .ok "t") (fun _ _ => .ok "t") "id-one" "id-two" 0 0 "ts" "ts"
    rfl rfl (by decide)

/-- Claim C10: every content frame emitted by the streaming endpoint carries
the provider text with each newline replaced by a space, so whenever the
provider text contains a newline the streamed content is not byte-for-byte
the provider's output. -/
theorem stream_frame_replaces_newlines (s : String) (h : '\n' ∈ s.data) :
    V1.streamFrame s = V1.frameHead ++ V1.nlToSpace s ++ V1.frameTail
    ∧ V1.nlToSpace s ≠ s := by
  refine ⟨rfl, ?_⟩
  intro he
  have hd : (V1.nlToSpace s).data = s.data := congrArg String.data he
  have hmem : '\n' ∈ s.data.map (fun c => if c = '\n' then ' ' else c) := by
    rw [show s.data.map (fun c => if c = '\n' then ' ' else c) = s.data from hd]
    exact h
  obtain ⟨a, _, hfa⟩ := List.mem_map.mp hmem
  by_cases hc : a = '\n'
  · subst hc
    simp at hfa
  · rw [if_neg hc] at hfa
    exact hc hfa

/-- Witness for C10 at the concrete chunk "a\nb". -/
theorem stream_frame_replaces_newlines_witness :
    '\n' ∈ ("a\nb" : String).data ∧ V1.nlToSpace "a\nb" ≠ "a\nb" :=
  ⟨by decide, (stream_frame_replaces_newlines "a\nb" (by decide)).2⟩

/-- Claim C3, counterexample: in the final variant the agent is constructed
once at startup from an environment with no key; when the credential becomes
resolvable before the second request ("key" is set), the second request still
does not take the provider-available path — availability was cached in
`__init__`, contrary to the claim. -/
theorem availability_cached_counterexample :
    ((Final.twoRequests true none (some "key")
        { query := "X", context := none, max_turns := some 2 }
        (fun _ _ => .ok "analysis") "id1" "id2" 0 "ts").2).providerCalled ≠ true := by
  decide

/-- Claim C3, amended: provider availability is cached, not per-request. In
the final variant an agent constructed while the credential is not resolvable
never calls the provider, whatever the environment holds at request time; in
v2 the environment is re-read per request only to choose between the
configuration-error response and the canned fallback — the provider path still
requires a client constructed at startup, so it is never taken either. -/
theorem availability_cached_at_startup (lib : Bool) (e0 e1 reqKey : Option String)
    (req : LegalQueryRequest)
    (provider provider2 : String → String → Except String String)
    (id1 id2 qid : String) (pt : Int) (ts : String)
    (h : envTruthy e0 = false) :
    ((Final.twoRequests lib e0 e1 req provider id1 id2 pt ts).2).providerCalled = false
    ∧ (V2.process_legal_query true (V2.agentInit e0) reqKey req provider2 qid pt ts).providerCalled
        = false := by
  constructor
  · simp [Final.twoRequests, Final.process_legal_query, Final.agentInit, h]
  · cases hk : envTruthy reqKey <;>
      simp [V2.process_legal_query, V2.agentInit, h, hk]

/-- Witness for the amended C3: startup with no key, request-time key set. -/
theorem availability_cached_at_startup_witness :
    ((Final.twoRequests true none (some "key")
        { query := "X", context := none, max_turns := some 2 }
        (fun _ _ => .ok "analysis") "id1" "id2" 0 "ts").2).providerCalled = false
    ∧ (V2.process_legal_query true (V2.agentInit none) (some "key")
        { query := "X", context := none, max_turns := some 2 }
        (fun _ _ => .ok "analysis") "qid" 0 "ts").providerCalled = false :=
  availability_cached_at_startup true none (some "key") (some "key")
    { query := "X", context := none, max_turns := some 2 }
    (fun _ _ => .ok "analysis") (fun _ _ => .ok "analysis")
    "id1" "id2" "qid" 0 "ts" rfl

/-- Claim C4: with no provider credential configured (agent unavailable), the
final variant returns the setup-required envelope embedding the literal
submitted query and context, and performs no provider call. -/
theorem setup_path_embeds_query (agent : Final.AgentState)
    (req : LegalQueryRequest)
    (provider : String → String → Except String String)
    (qid : String) (pt : Int) (ts : String)
    (h : agent.available = false) :
    (Final.process_legal_query agent req provider qid pt ts).providerCalled = false
    ∧ containsStr (Final.process_legal_query agent req provider qid pt ts).envelope.response
        req.query
    ∧ (∀ c, req.context = some c →
        containsStr (Final.process_legal_query agent req provider qid pt ts).envelope.response c) := by
  have hresp : (Final.process_legal_query agent req provider qid pt ts).envelope.response
      = Final.setupResponse req := by
    simp [Final.process_legal_query, h]
  refine ⟨by simp [Final.process_legal_query, h], ?_, ?_⟩
  · rw [hresp]
    exact Final.setupResponse_contains_query req
  · intro c hc
    rw [hresp]
    exact Final.setupResponse_contains_context req c hc

/-- Witness for C4 at a concrete unavailable agent with query "Q" and context "C". -/
theorem setup_path_embeds_query_witness :
    (Final.process_legal_query ⟨0, false⟩ ⟨"Q", some "C", some 2⟩
        (fun _ _ => .ok "t") "id" 0 "ts").providerCalled = false
    ∧ containsStr (Final.process_legal_query ⟨0, false⟩ ⟨"Q", some "C", some 2⟩
        (fun _ _ => .ok "t") "id" 0 "ts").envelope.response "Q"
    ∧ containsStr (Final.process_legal_query ⟨0, false⟩ ⟨"Q", some "C", some 2⟩
        (fun _ _ => .ok "t") "id" 0 "ts").envelope.response "C" := by
  have h := setup_path_embeds_query ⟨0, false⟩ ⟨"Q", some "C", some 2⟩
    (fun _ _ => .ok "t") "id" 0 "ts" rfl
  exact ⟨h.1, h.2.1, h.2.2 "C" rfl⟩

/-- Claim C5, counterexample: in v2, when the provider call raises, the
handler does not return an envelope at all — it re-raises as an
`HTTPException`, so "returns an envelope whose responseText contains the
provider's exception message" is false for that variant. -/
theorem v2_provider_error_returns_no_envelope :
    ¬ ∃ env : LegalQueryResponse,
      (V2.process_legal_query true (V2.agentInit (some "k")) (some "k")
        { query := "Q", context := none, max_turns := some 2 }
        (fun _ _ => .error "boom") "id" 0 "ts").result = .ok env := by
  rintro ⟨env, h⟩
  simp [V2.process_legal_query, V2.agentInit, envTruthy] at h

/-- Claim C5, amended: no provider exception escapes a handler unhandled, but
the two variants convert it differently. The final variant returns an
envelope whose body contains the exception message, the literal query and the
literal context; v2 converts it to an `HTTPException` with status 500 whose
detail contains the message (no envelope, no echoed query). -/
theorem provider_error_converted (agent : Final.AgentState) (ag2 : V2.AgentState)
    (req : LegalQueryRequest) (e : String)
    (provider provider2 : String → String → Except String String)
    (reqKey : Option String) (qid : String) (pt : Int) (ts : String)
    (h : agent.available = true)
    (hp : provider Final.systemPrompt (Final.userMessage req) = .error e)
    (h2 : ag2.hasClient = true)
    (hp2 : provider2 V2.systemPrompt (V2.fullPrompt req) = .error e) :
    containsStr (Final.process_legal_query agent req provider qid pt ts).envelope.response e
    ∧ containsStr (Final.process_legal_query agent req provider qid pt ts).envelope.response
        req.query
    ∧ (∀ c, req.context = some c →
        containsStr (Final.process_legal_query agent req provider qid pt ts).envelope.response c)
    ∧ (V2.process_legal_query true ag2 reqKey req provider2 qid pt ts).result
        = .error ⟨500, "Legal analysis failed: " ++ e⟩ := by
  have hresp : (Final.process_legal_query agent req provider qid pt ts).envelope.response
      = Final.errorResponse req e := by
    simp [Final.process_legal_query, h, hp]
  refine ⟨?_, ?_, ?_, ?_⟩
  · rw [hresp]
    exact Final.errorResponse_contains_message req e
  · rw [hresp]
    exact Final.errorResponse_contains_query req e
  · intro c hc
    rw [hresp]
    exact Final.errorResponse_contains_context req e c hc
  · simp [V2.process_legal_query, h2, hp2]

/-- Witness for the amended C5 at concrete agents and the error "boom". -/
theorem provider_error_converted_witness :
    containsStr (Final.process_legal_query ⟨0, true⟩ ⟨"Q", some "C", some 2⟩
        (fun _ _ => .error "boom") "id" 0 "ts").envelope.response "boom"
    ∧ containsStr (Final.process_legal_query ⟨0, true⟩ ⟨"Q", some "C", some 2⟩
        (fun _ _ => .error "boom") "id" 0 "ts").envelope.response "Q"
    ∧ (V2.process_legal_query true ⟨0, true⟩ (some "k") ⟨"Q", some "C", some 2⟩
        (fun _ _ => .error "boom") "id" 0 "ts").result
        = .error ⟨500, "Legal analysis failed: " ++ "boom"⟩ := by
  have h := provider_error_converted ⟨0, true⟩ ⟨0, true⟩ ⟨"Q", some "C", some 2⟩ "boom"
    (fun _ _ => .error "boom") (fun _ _ => .error "boom") (some "k") "id" 0 "ts"
    rfl rfl rfl rfl
  exact ⟨h.1, h.2.1, h.2.2.2⟩

/-- Claim C6: on every path of every variant, an envelope that is actually
returned carries `status = "completed"`: the final variant on all three of
its paths, and v1/v2 on their single envelope-producing paths (their other
paths raise an `HTTPException` and return no envelope). -/
theorem status_always_completed
    (agent : Final.AgentState) (ag2 : V2.AgentState) (req : LegalQueryRequest)
    (provider provider2 : String → String → Except String String)
    (qid : String) (pt : Int) (ts : String)
    (sdkAvailable anthropicAvailable : Bool) (count : Nat)
    (streamResult : Except String (List V1.Msg)) (reqKey : Option String) :
    (Final.process_legal_query agent req provider qid pt ts).envelope.status = "completed"
    ∧ (∀ env, (V1.process_legal_query sdkAvailable count req streamResult qid pt ts).1
        = .ok env → env.status = "completed")
    ∧ (∀ env, (V2.process_legal_query anthropicAvailable ag2 reqKey req provider2 qid pt ts).result
        = .ok env → env.status = "completed") := by
  refine ⟨?_, ?_, ?_⟩
  · unfold Final.process_legal_query
    split
    · split <;> rfl
    · rfl
  · intro env h
    unfold V1.process_legal_query at h
    split at h
    · exact absurd h (by simp)
    · split at h
      · exact absurd h (by simp)
      · simp only [Except.ok.injEq] at h
        rw [← h]
  · intro env h
    unfold V2.process_legal_query at h
    split at h
    · exact absurd h (by simp)
    · split at h
      · exact absurd h (by simp)
      · split at h
        · split at h
          · simp only [Except.ok.injEq] at h
            rw [← h]
          · exact absurd h (by simp)
        · simp only [Except.ok.injEq] at h
          rw [← h]

/-- Witness for C6: the final setup path and a concrete v1 success run. -/
theorem status_always_completed_witness :
    (Final.process_legal_query ⟨0, false⟩ ⟨"Q", none, some 2⟩
        (fun _ _ => .ok "t") "id" 0 "ts").envelope.status = "completed"
    ∧ ({ query_id := "id", status := "completed", response := "hi",
         processing_time := 0, timestamp := "ts" } : LegalQueryResponse).status = "completed" := by
  have h := status_always_completed ⟨0, false⟩ ⟨0, true⟩ ⟨"Q", none, some 2⟩
    (fun _ _ => .ok "t") (fun _ _ => .ok "t") "id" 0 "ts" true true 0
    (.ok [⟨some "hi"⟩]) (some "k")
  exact ⟨h.1, h.2.1 _ rfl⟩

/-- Claim C7, counterexample: in the final variant a provider success whose
returned text is empty yields an envelope with empty `response`, so
"`responseText` is always non-empty" is false as stated. -/
theorem final_success_empty_response :
    (Final.process_legal_query ⟨0, true⟩ ⟨"Q", none, some 2⟩
        (fun _ _ => .ok "") "id" 0 "ts").envelope.response = "" := rfl

/-- Claim C7, amended: in the v1 variant every returned envelope has non-empty
`response` (blank accumulated content is replaced by a fallback sentence); in
the final variant the canned setup and error paths are non-empty, while the
provider-success path uses the provider text verbatim — and is therefore empty
exactly when that text is empty. -/
theorem response_nonempty_amended
    (req : LegalQueryRequest) (count : Nat) (streamResult : Except String (List V1.Msg))
    (qid ts : String) (pt : Int) (agent : Final.AgentState)
    (provider : String → String → Except String String) (text e : String) :
    (∀ env, (V1.process_legal_query true count req streamResult qid pt ts).1 = .ok env →
        env.response ≠ "")
    ∧ (agent.available = false →
        (Final.process_legal_query agent req provider qid pt ts).envelope.response ≠ "")
    ∧ (agent.available = true →
        provider Final.systemPrompt (Final.userMessage req) = .error e →
        (Final.process_legal_query agent req provider qid pt ts).envelope.response ≠ "")
    ∧ (agent.available = true →
        provider Final.systemPrompt (Final.userMessage req) = .ok text →
        (Final.process_legal_query agent req provider qid pt ts).envelope.response = text) := by
  refine ⟨?_, ?_, ?_, ?_⟩
  · intro env h
    unfold V1.process_legal_query at h
    split at h
    · exact absurd h (by simp)
    · split at h
      · exact absurd h (by simp)
      · simp only [Except.ok.injEq] at h
        rw [← h]
        split
        · show pyStrip V1.emptyFallback ≠ ""
          decide
        · next hne => exact hne
  · intro h
    have hresp : (Final.process_legal_query agent req provider qid pt ts).envelope.response
        = Final.setupResponse req := by
      simp [Final.process_legal_query, h]
    rw [hresp]
    exact Final.setupResponse_ne_empty req
  · intro h hp
    have hresp : (Final.process_legal_query agent req provider qid pt ts).envelope.response
        = Final.errorResponse req e := by
      simp [Final.process_legal_query, h, hp]
    rw [hresp]
    exact Final.errorResponse_ne_empty req e
  · intro h hp
    simp [Final.process_legal_query, h, hp]

/-- Witness for the amended C7: a concrete v1 run and the final setup path. -/
theorem response_nonempty_amended_witness :
    ({ query_id := "id", status := "completed", response := "hi",
       processing_time := 0, timestamp := "ts" } : LegalQueryResponse).response ≠ ""
    ∧ (Final.process_legal_query ⟨0, false⟩ ⟨"Q", none, some 2⟩
        (fun _ _ => .ok "t") "id" 0 "ts").envelope.response ≠ "" := by
  have h := response_nonempty_amended ⟨"Q", none, some 2⟩ 0 (.ok [⟨some "hi"⟩])
    "id" "ts" 0 ⟨0, false⟩ (fun _ _ => .ok "t") "t" "e"
  exact ⟨h.1 _ rfl, h.2.1 rfl⟩

/-- Claim C8, counterexample: the claim says `responseText` is the
concatenation of the consumed increments used verbatim, but v1 strips the
concatenation: for the single increment " hi " the returned body is "hi". -/
theorem collected_response_not_verbatim :
    ¬ (∀ env, (V1.process_legal_query true 0 ⟨"Q", none, some 2⟩
          (.ok [⟨some " hi "⟩]) "id" 0 "ts").1 = .ok env → env.response = " hi ") := by
  intro h
  have hc := h ⟨"id", "completed", "hi", 0, "ts"⟩ rfl
  exact absurd hc (by decide)

/-- Claim C8, amended: on a successful v1 run, `response` is the
whitespace-stripped concatenation of the consumed content increments — with a
fixed fallback sentence substituted when the stripped concatenation is blank.
The consumed increments are an initial segment of the stream's content
increments (nothing is read past the cut-off), at most `turnLimit` of them are
consumed when the limit is positive, and an absent `turnLimit` defaults to 2
via the request model. -/
theorem collected_response_characterization (req : LegalQueryRequest)
    (msgs : List V1.Msg) (count : Nat) (qid ts : String) (pt : Int)
    (env : LegalQueryResponse)
    (h : (V1.process_legal_query true count req (.ok msgs) qid pt ts).1 = .ok env) :
    env.response =
      pyStrip (if pyStrip (strJoin (V1.consumed (pyOrInt req.max_turns 2) msgs)) = ""
        then V1.emptyFallback
        else strJoin (V1.consumed (pyOrInt req.max_turns 2) msgs))
    ∧ V1.consumed (pyOrInt req.max_turns 2) msgs <+: V1.allContents msgs
    ∧ (1 ≤ pyOrInt req.max_turns 2 →
        ((V1.consumed (pyOrInt req.max_turns 2) msgs).length : Int) ≤ pyOrInt req.max_turns 2)
    ∧ (∀ (q : String) (c : Option String),
        parseLegalQueryRequest ⟨some q, c, none⟩ = .ok ⟨q, c, some 2⟩) := by
  have hcoll : V1.collectLoop (pyOrInt req.max_turns 2) msgs 0 ""
      = strJoin (V1.consumed (pyOrInt req.max_turns 2) msgs) := by
    rw [V1.collectLoop_eq_consumed]
    simp [strEmpty_append]
  refine ⟨?_, V1.consumed_prefix msgs _, V1.consumed_length_le msgs _, fun q c => rfl⟩
  unfold V1.process_legal_query at h
  split at h
  · exact absurd h (by simp)
  · split at h
    · exact absurd h (by simp)
    · next msgs2 heq =>
      simp only [Except.ok.injEq] at h
      cases heq
      rw [← h, hcoll]

/-- Witness for the amended C8 at a concrete two-increment stream. -/
theorem collected_response_characterization_witness :
    ({ query_id := "id", status := "completed", response := "ab",
       processing_time := 0, timestamp := "ts" } : LegalQueryResponse).response
      = pyStrip (if pyStrip (strJoin (V1.consumed (pyOrInt (some 2) 2)
            [⟨some "a"⟩, ⟨some "b"⟩, ⟨some "c"⟩])) = ""
          then V1.emptyFallback
          else strJoin (V1.consumed (pyOrInt (some 2) 2) [⟨some "a"⟩, ⟨some "b"⟩, ⟨some "c"⟩]))
    ∧ V1.consumed (pyOrInt (some 2) 2) [⟨some "a"⟩, ⟨some "b"⟩, ⟨some "c"⟩]
        <+: V1.allContents [⟨some "a"⟩, ⟨some "b"⟩, ⟨some "c"⟩] := by
  have h := collected_response_characterization ⟨"Q", none, some 2⟩
    [⟨some "a"⟩, ⟨some "b"⟩, ⟨some "c"⟩] 0 "id" "ts" 0
    ⟨"id", "completed", "ab", 0, "ts"⟩ rfl
  exact ⟨h.1, h.2.1⟩

end LegalAgent

